import Mathlib

/-!
Verification development for the context-gathering and ignore-filtering engine
of the manus CLI (`src/manus.py`).

The Python source is shallowly embedded as executable Lean definitions:

* Python `fnmatch.fnmatch` (shell-style globbing, POSIX `normcase` is the
  identity) is embedded as `Manus.fnmatch` via a tokenizer and a structural
  matcher. `*` matches any run of characters including separators, `?` matches
  exactly one character, `[...]` character classes (with `!` negation, a
  leading literal `]`, and `a-b` ranges) are supported, and an unterminated
  `[` is a literal character, following CPython's `fnmatch.translate`.
* File-system paths are component lists (`List String`); `Path.relative_to`
  becomes `Manus.dropRoot`, `PurePath.as_posix` becomes `Manus.asPosix`.
* `is_ignored` raises `ValueError` when the path is not under the project
  root; this is embedded with `Except`.
* `load_config` reads two optional files; their outcomes are inputs of type
  `Manus.FileRead`.  The CPython-level aliasing of `DEFAULT_CONFIG["ignore_files"]`
  (a process-global mutable list) is embedded by threading an explicit
  `Manus.GlobalState` value through the call.
* `gather_context` receives the `Path.rglob` listing as an explicit list of
  entries with their read outcomes, and returns the context block together
  with the warnings printed to stderr.
-/

namespace Manus

/-- Tokens of a glob pattern, mirroring what CPython's `fnmatch.translate`
produces: a wildcard run, a single-character wildcard, a character class
(with its negation flag and raw body), or a literal character. -/
inductive GlobTok where
  | star : GlobTok
  | anyChar : GlobTok
  | cls : Bool → List Char → GlobTok
  | lit : Char → GlobTok
deriving DecidableEq, Repr

/-- Scan the characters following a `[`, the way `fnmatch.translate` does:
an optional leading `!` negates, a `]` right after that is a literal member,
and the body then runs to the next `]`.  Returns `none` (so the `[` is a
literal) when no closing `]` exists. -/
def splitClass (ps : List Char) : Option (Bool × List Char × List Char) :=
  let negps :=
    match ps with
    | '!' :: t => (true, t)
    | _ => (false, ps)
  let neg := negps.fst
  let ps1 := negps.snd
  let leadps :=
    match ps1 with
    | ']' :: t => ([']'], t)
    | _ => (([] : List Char), ps1)
  let lead := leadps.fst
  let ps2 := leadps.snd
  let body := ps2.takeWhile (fun c => !(c == ']'))
  let rest := ps2.dropWhile (fun c => !(c == ']'))
  match rest with
  | [] => none
  | _ :: r => some (neg, lead ++ body, r)

/-- Membership of a character in a class body: `a-b` ranges (a trailing `-`
is a literal), everything else is a literal member, as in the regular
expression emitted by `fnmatch.translate`. -/
def classMember : List Char → Char → Bool
  | [], _ => false
  | [a], c => a == c
  | a :: '-' :: [], c => a == c || c == '-'
  | a :: '-' :: b :: rest, c => (a ≤ c && c ≤ b) || classMember rest c
  | a :: rest, c => a == c || classMember rest c

/-- Tokenize a glob pattern.  The fuel argument starts at the length of the
input; every step consumes at least one character and one unit of fuel, so
the `0`-fuel branch is unreachable for the initial call in `tokenize`. -/
def tokenizeAux : Nat → List Char → List GlobTok
  | 0, _ => []
  | _ + 1, [] => []
  | n + 1, '*' :: ps => GlobTok.star :: tokenizeAux n ps
  | n + 1, '?' :: ps => GlobTok.anyChar :: tokenizeAux n ps
  | n + 1, '[' :: ps =>
    match splitClass ps with
    | some (neg, body, rest) => GlobTok.cls neg body :: tokenizeAux n rest
    | none => GlobTok.lit '[' :: tokenizeAux n ps
  | n + 1, c :: ps => GlobTok.lit c :: tokenizeAux n ps

/-- Tokenize a glob pattern (see `tokenizeAux`). -/
def tokenize (ps : List Char) : List GlobTok :=
  tokenizeAux ps.length ps

/-- Match a token list against a character list; whole-string match, with
`star` matching any run of characters (including `/` and newlines), exactly
as the `(?s:...)​\Z` regular expression produced by `fnmatch.translate`. -/
def matchToks : List GlobTok → List Char → Bool
  | [], cs => cs.isEmpty
  | GlobTok.star :: ts, cs => (cs.tails).any (fun t => matchToks ts t)
  | GlobTok.anyChar :: _, [] => false
  | GlobTok.anyChar :: ts, _ :: cs => matchToks ts cs
  | GlobTok.cls _ _ :: _, [] => false
  | GlobTok.cls neg body :: ts, c :: cs => (classMember body c != neg) && matchToks ts cs
  | GlobTok.lit _ :: _, [] => false
  | GlobTok.lit a :: ts, c :: cs => a == c && matchToks ts cs

/-- Python `fnmatch.fnmatch(name, pattern)`.  On POSIX `os.path.normcase` is
the identity, so this is a case-sensitive whole-string glob match. -/
def fnmatch (name pat : String) : Bool :=
  matchToks (tokenize pat.data) name.data

/-- Python `pattern.endswith('/')`. -/
def endsWithSlash (s : String) : Bool :=
  s.data.getLast? == some '/'

/-- Python `pattern.rstrip('/')`: remove every trailing `/`. -/
def rstripSlash (s : String) : String :=
  String.mk ((s.data.reverse.dropWhile (fun c => c == '/')).reverse)

/-- Python `PurePath.as_posix()` of a relative path given by its components;
the empty component list is the path `"."` (what `p.relative_to(p)` yields). -/
def asPosix (parts : List String) : String :=
  match parts with
  | [] => (".")
  | _ => String.intercalate ("/") parts

/-- Python `path.relative_to(project_root)` on component lists: strips `root`
as a prefix of `parts`, and fails (`ValueError` in the source) when `root` is
not a prefix. -/
def dropRoot : List String → List String → Option (List String)
  | [], parts => some parts
  | _ :: _, [] => none
  | r :: rs, p :: ps => if r = p then dropRoot rs ps else none

/-- A file-system path as seen by `is_ignored`: its components plus the
answer `os` would give to `path.is_dir()`. -/
structure FSPath where
  parts : List String
  isDir : Bool
deriving DecidableEq, Repr

/-- The message of the `ValueError` raised by `Path.relative_to` when `path`
is not under `project_root`. -/
def invalidPathError (parts root : List String) : String :=
  ("ValueError: ") ++ asPosix parts ++ (" is not in the subpath of ") ++ asPosix root

/-- The body of the loop of `is_ignored` (src/manus.py lines 85-89), applied
to the already-computed relative path: for each pattern, strip trailing
slashes only when the pattern ends in `/` AND the candidate is a directory,
then test the pattern itself and the pattern with `/*` appended. -/
def ignoreLoop (relative_path : String) (isDir : Bool) (ignore_patterns : List String) : Bool :=
  ignore_patterns.any (fun pat =>
    let p := if endsWithSlash pat && isDir then rstripSlash pat else pat
    fnmatch relative_path p || fnmatch relative_path (p ++ ("/*")))

/-- `is_ignored(path, ignore_patterns, project_root)` (src/manus.py
lines 82-90).  The `ValueError` of `relative_to` propagates to the caller;
it is embedded as `Except.error`. -/
def is_ignored (path : FSPath) (ignore_patterns : List String) (project_root : List String) :
    Except String Bool :=
  match dropRoot project_root path.parts with
  | none => Except.error (invalidPathError path.parts project_root)
  | some rel => Except.ok (ignoreLoop (asPosix rel) path.isDir ignore_patterns)

/-- The effective configuration record: the keys of `DEFAULT_CONFIG` that the
core reads (unknown JSON keys are carried along by the Python dict but never
read, so they are not modelled). -/
structure Config where
  model : String
  system_prompt : String
  ignore_files : List String
deriving DecidableEq, Repr

/-- `DEFAULT_CONFIG["ignore_files"]` (src/manus.py lines 19-30). -/
def DEFAULT_IGNORE_FILES : List String :=
  [(".git/"), ("node_modules/"), ("venv/"), ("__pycache__/"), ("*.log"),
   ("*.sqlite3"), ("*.env"), (".manusignore"), ("manus.json"), ("manus.py")]

/-- `DEFAULT_CONFIG` (src/manus.py lines 16-31). -/
def DEFAULT_CONFIG : Config :=
  { model := ("gpt-4.1-mini")
    system_prompt := ("You are a world-class full-stack developer assistant named Manus. Your goal is to help the user with their coding tasks. You are working on a project described by the following file contents. Analyze the context and provide concise, actionable code or advice. If you are asked to write code, only output the code block and nothing else.")
    ignore_files := DEFAULT_IGNORE_FILES }

/-- Process-global mutable state: the current contents of the CPython list
object held by `DEFAULT_CONFIG["ignore_files"]`.  `load_config` both reads
and (through `final_ignore_list`, an alias of that list) writes it. -/
structure GlobalState where
  default_ignore_files : List String
deriving DecidableEq, Repr

/-- The global state at interpreter start-up. -/
def initialState : GlobalState :=
  GlobalState.mk DEFAULT_IGNORE_FILES

/-- Outcome of attempting to read one file from disk: the file may be absent,
present but unreadable (an `OSError`/`UnicodeDecodeError` on open or read),
or readable with parsed content `v`. -/
inductive FileRead (α : Type) where
  | missing : FileRead α
  | unreadable : String → FileRead α
  | content : α → FileRead α
deriving DecidableEq, Repr

/-- The `ignore_files` value found in a parsed `manus.json` object: the key
may be absent, present with a non-list value (the `isinstance` check in the
source then skips it), or present with a list of pattern strings. -/
inductive JsonIgnore where
  | absent : JsonIgnore
  | nonList : JsonIgnore
  | list : List String → JsonIgnore
deriving DecidableEq, Repr

/-- The recognized keys of a `manus.json` top-level object.  `none` means the
key is absent and the default survives the `dict.update` overlay. -/
structure ManusJsonObj where
  model : Option String
  system_prompt : Option String
  ignore_files : JsonIgnore
deriving DecidableEq, Repr

/-- Result of `json.load` on a present, readable `manus.json`.
`malformed` is a `json.JSONDecodeError` (caught by the source).  `badUpdate`
is a valid JSON value that `config.update` rejects — one that is neither a
mapping nor an iterable of key/value pairs, e.g. a number, a string, or a
list of non-pairs — so `update` raises an uncaught `TypeError`/`ValueError`.
`object o` is a JSON object, or any other value `dict.update` accepts (an
iterable of key/value pairs such as `[]` or `[["model", "m"]]`, whose
overlay is identical to that of the corresponding object), described by the
recognized keys it contributes. -/
inductive JsonParse where
  | malformed : JsonParse
  | badUpdate : JsonParse
  | object : ManusJsonObj → JsonParse
deriving DecidableEq, Repr

/-- Warning printed when `manus.json` exists but fails to parse
(src/manus.py line 46). -/
def parseWarning (project_root : List String) : String :=
  ("Warning: Could not parse ") ++ asPosix (project_root ++ [("manus.json")]) ++
    (". Using default configuration.")

/-- Warning printed when `.manusignore` exists but cannot be read
(src/manus.py line 59). -/
def ignoreReadWarning (project_root : List String) (msg : String) : String :=
  ("Warning: Could not read ") ++ asPosix (project_root ++ [(".manusignore")]) ++
    (": ") ++ msg

/-- Python whitespace stripped by `str.strip()` (the ASCII part; the lines of
an ignore file are ASCII glob patterns). -/
def pyIsSpace (c : Char) : Bool :=
  c == ' ' || c == '\t' || c == '\n' || c == '\r' || c == '\x0b' || c == '\x0c'

/-- Python `line.strip()`. -/
def pyStrip (s : String) : String :=
  String.mk (((s.data.dropWhile pyIsSpace).reverse.dropWhile pyIsSpace).reverse)

/-- Python `line.startswith('#')`. -/
def startsWithHash (s : String) : Bool :=
  s.data.head? == some '#'

/-- The patterns collected from the lines of `.manusignore` (src/manus.py
lines 53-57): strip each line, keep it when non-blank and not a comment. -/
def manusignoreLines (lines : List String) : List String :=
  (lines.map pyStrip).filter (fun l => !(l == ("")) && !(startsWithHash l))

/-- Step 2 of `load_config` (src/manus.py lines 48-59): the `.manusignore`
patterns together with the warning a read failure produces.  A missing file
is silently skipped; any read error is caught broadly. -/
def readManusignore (project_root : List String) :
    FileRead (List String) → List String × List String
  | FileRead.missing => ([], [])
  | FileRead.unreadable msg => ([], [ignoreReadWarning project_root msg])
  | FileRead.content lines => (manusignoreLines lines, [])

/-- Step 1 of `load_config` (src/manus.py lines 38-46): overlay `manus.json`
onto the defaults.  Returns the effective `model`, `system_prompt`, the
`ignore_files` value now held by `config` (where `JsonIgnore.absent` means
`config["ignore_files"]` is still the very list object aliased from
`DEFAULT_CONFIG`), and the warnings printed.  Only `json.JSONDecodeError` is
caught: a present-but-unreadable file propagates its error, and a JSON value
that is neither a mapping nor an iterable of key/value pairs makes
`config.update` raise. -/
def applyManusJson (project_root : List String) :
    FileRead JsonParse → Except String (String × String × JsonIgnore × List String)
  | FileRead.missing =>
      Except.ok (DEFAULT_CONFIG.model, DEFAULT_CONFIG.system_prompt, JsonIgnore.absent, [])
  | FileRead.unreadable msg =>
      Except.error (("OSError: could not read ") ++ asPosix (project_root ++ [("manus.json")]) ++
        (": ") ++ msg)
  | FileRead.content JsonParse.malformed =>
      Except.ok (DEFAULT_CONFIG.model, DEFAULT_CONFIG.system_prompt, JsonIgnore.absent,
        [parseWarning project_root])
  | FileRead.content JsonParse.badUpdate =>
      Except.error ("TypeError: dict.update with a JSON value that is neither a mapping nor an iterable of key/value pairs")
  | FileRead.content (JsonParse.object o) =>
      Except.ok (o.model.getD DEFAULT_CONFIG.model,
        o.system_prompt.getD DEFAULT_CONFIG.system_prompt, o.ignore_files, [])

/-- `final_ignore_list.extend(config["ignore_files"])` guarded by the
`isinstance` check (src/manus.py lines 63-65), acting on the current contents
of the global default list.  When `config["ignore_files"]` is still the alias
of that same list object, `extend` receives the list itself and doubles it. -/
def extendByConfigIgnore (dflt : List String) : JsonIgnore → List String
  | JsonIgnore.absent => dflt ++ dflt
  | JsonIgnore.nonList => dflt
  | JsonIgnore.list xs => dflt ++ xs

/-- Python `list(set(xs))`: duplicate-free, with an order this development
never relies on (only membership and `Nodup` are used in theorems). -/
def pySet (xs : List String) : List String :=
  xs.dedup

/-- `load_config(project_root)` (src/manus.py lines 33-70).  The two file
reads are explicit inputs; the process-global list behind
`DEFAULT_CONFIG["ignore_files"]` is threaded as `st`.  Returns the
configuration, the warnings printed to stderr, and the new global state;
uncaught Python exceptions are `Except.error`. -/
def load_config (project_root : List String) (fsJson : FileRead JsonParse)
    (fsIgnore : FileRead (List String)) (st : GlobalState) :
    Except String (Config × List String × GlobalState) :=
  match applyManusJson project_root fsJson with
  | Except.error e => Except.error e
  | Except.ok (m, sp, jig, w1) =>
      let ignore_patterns := (readManusignore project_root fsIgnore).fst
      let w2 := (readManusignore project_root fsIgnore).snd
      let final_ignore_list := extendByConfigIgnore st.default_ignore_files jig
      let final2 := final_ignore_list ++ ignore_patterns
      Except.ok ({ model := m, system_prompt := sp, ignore_files := pySet final2 },
        w1 ++ w2, GlobalState.mk final2)

/-- The patterns the project configuration file contributes to the merge
(the config file's `ignore_files` list when it is present and a list). -/
def configFileIgnores : FileRead JsonParse → List String
  | FileRead.content (JsonParse.object o) =>
      match o.ignore_files with
      | JsonIgnore.list xs => xs
      | _ => []
  | _ => []

/-- The patterns the ignore-declaration file contributes to the merge. -/
def ignoreFileIgnores : FileRead (List String) → List String
  | FileRead.content lines => manusignoreLines lines
  | _ => []

/-- Whether `load_config` raises: it does exactly when `manus.json` is
present but unreadable, or parses to a valid JSON value that `dict.update`
rejects (neither a mapping nor an iterable of key/value pairs). -/
def jsonRaises : FileRead JsonParse → Bool
  | FileRead.unreadable _ => true
  | FileRead.content JsonParse.badUpdate => true
  | _ => false

/-- Whether an embedded call ended in an uncaught exception. -/
def isErrEx : Except String (Config × List String × GlobalState) → Bool
  | Except.error _ => true
  | Except.ok _ => false

/-- Prepend a warning to the diagnostic output of a successful call. -/
def addFirstWarning (w : String) :
    Except String (Config × List String × GlobalState) →
    Except String (Config × List String × GlobalState)
  | Except.ok (c, ws, s) => Except.ok (c, w :: ws, s)
  | Except.error e => Except.error e

/-- Outcome of `path.read_text(encoding='utf-8')` for one regular file:
decoded text, a `UnicodeDecodeError` (skipped silently), or any other
exception (warned about and skipped). -/
inductive ReadResult where
  | ok : String → ReadResult
  | decodeError : ReadResult
  | ioError : String → ReadResult
deriving DecidableEq, Repr

/-- One entry of the `project_root.rglob('*')` listing, with its components
relative to the project root (rglob only yields paths under the root),
whether it is a directory, and the outcome reading it would have. -/
structure FileEntry where
  parts : List String
  isDir : Bool
  read : ReadResult
deriving DecidableEq, Repr

/-- The binary-extension deny list (src/manus.py line 99). -/
def BINARY_SUFFIXES : List String :=
  [(".png"), (".jpg"), (".jpeg"), (".bin"), (".zip"), (".tar"), (".gz"), (".ico")]

/-- Python `pathlib.PurePath.suffix` of a file name: the part from the last
dot, provided that dot is neither the first nor the last character. -/
def pySuffix (name : String) : String :=
  let cs := name.data
  if cs.contains '.' then
    let k := (cs.reverse.takeWhile (fun c => !(c == '.'))).length
    let i := cs.length - 1 - k
    if 0 < i ∧ i < cs.length - 1 then String.mk (cs.drop i) else ("")
  else ("")

/-- The rendered block for one surviving file (src/manus.py line 109). -/
def renderEntry (relative_path content : String) : String :=
  ("--- FILE: ") ++ relative_path ++ (" ---\n") ++ content ++
    ("\n--- END FILE: ") ++ relative_path ++ (" ---\n")

/-- Warning printed when reading one file fails with a non-decode error
(src/manus.py line 114); `path` there is the absolute path. -/
def readWarning (project_root parts : List String) (msg : String) : String :=
  ("Warning: Could not read file ") ++ asPosix (project_root ++ parts) ++ (": ") ++ msg

/-- The loop body of `gather_context` (src/manus.py lines 95-114) for one
rglob entry: the produced context entry (if any) and the produced warning
(if any).  Directories and ignored files are skipped before the `try` block;
inside it, the binary-suffix check precedes the read, a decode error skips
silently, any other read error warns, and an oversized decoded content is
dropped silently. -/
def gatherFile (project_root ignore_patterns : List String) (e : FileEntry) :
    Option String × Option String :=
  if e.isDir then (none, none)
  else if ignoreLoop (asPosix e.parts) e.isDir ignore_patterns then (none, none)
  else if BINARY_SUFFIXES.contains (pySuffix (e.parts.getLastD (""))) then (none, none)
  else
    match e.read with
    | ReadResult.ok content =>
        if content.length > 100000 then (none, none)
        else (some (renderEntry (asPosix e.parts) content), none)
    | ReadResult.decodeError => (none, none)
    | ReadResult.ioError msg => (none, some (readWarning project_root e.parts msg))

/-- The context entries produced by the scan, in listing order. -/
def gatherEntries (project_root ignore_patterns : List String)
    (listing : List FileEntry) : List String :=
  listing.filterMap (fun e => (gatherFile project_root ignore_patterns e).fst)

/-- The warnings the scan prints to stderr, in listing order. -/
def gatherWarnings (project_root ignore_patterns : List String)
    (listing : List FileEntry) : List String :=
  listing.filterMap (fun e => (gatherFile project_root ignore_patterns e).snd)

/-- Each produced entry paired with the path components of the file it came
from: an observation used to state that each surviving file yields exactly
one entry. -/
def gatherPairs (project_root ignore_patterns : List String)
    (listing : List FileEntry) : List (List String × String) :=
  listing.filterMap (fun e =>
    ((gatherFile project_root ignore_patterns e).fst).map (fun s => (e.parts, s)))

/-- `gather_context(project_root, ignore_patterns)` (src/manus.py lines
92-116) over an explicit rglob listing: the joined context block and the
warnings printed to stderr. -/
def gather_context (project_root : List String) (listing : List FileEntry)
    (ignore_patterns : List String) : String × List String :=
  (String.intercalate ("\n") (gatherEntries project_root ignore_patterns listing),
   gatherWarnings project_root ignore_patterns listing)

/-- Whether a string ends in a newline (used to state the blank-line
separation of entries in the joined block). -/
def endsWithNewline (s : String) : Bool :=
  s.data.getLast? == some '\n'

/-- Whether an embedded `is_ignored` call raised. -/
def isIgnoredRaises : Except String Bool → Bool
  | Except.error _ => true
  | Except.ok _ => false

/-- A `manus.json` whose object sets `ignore_files` to `["*.secret"]`. -/
def exampleSecretJson : FileRead JsonParse :=
  FileRead.content (JsonParse.object (ManusJsonObj.mk none none (JsonIgnore.list [("*.secret")])))

/-- The configuration `load_config` produces for `exampleSecretJson` with no
ignore file, starting from a fresh process state. -/
def exampleSecretCfg : Config :=
  { model := DEFAULT_CONFIG.model
    system_prompt := DEFAULT_CONFIG.system_prompt
    ignore_files := DEFAULT_IGNORE_FILES ++ [("*.secret")] }

/-- Fifty characters of plain text (the `a.py` content of the scenario in
the specification). -/
def aContent : String :=
  String.mk (List.replicate 50 'a')

/-- The rglob listing of the specification's scenario: a root containing
`a.py` (50 bytes), `node_modules/x.js`, `.git/HEAD` and `notes.log`. -/
def scenarioListing : List FileEntry :=
  [FileEntry.mk [(".git")] true (ReadResult.ok ("")),
   FileEntry.mk [(".git"), ("HEAD")] false (ReadResult.ok ("ref: refs/heads/main\n")),
   FileEntry.mk [("a.py")] false (ReadResult.ok aContent),
   FileEntry.mk [("node_modules")] true (ReadResult.ok ("")),
   FileEntry.mk [("node_modules"), ("x.js")] false (ReadResult.ok ("console.log(1);\n")),
   FileEntry.mk [("notes.log")] false (ReadResult.ok ("log line\n"))]

/-- A small ordinary text file. -/
def smallFile : FileEntry :=
  FileEntry.mk [("ok.py")] false (ReadResult.ok ("print(1)\n"))

/-- A readable, non-ignored project file. -/
def goodA : FileEntry :=
  FileEntry.mk [("a.py")] false (ReadResult.ok ("print(1)\n"))

/-- A second readable, non-ignored project file. -/
def goodB : FileEntry :=
  FileEntry.mk [("b.py")] false (ReadResult.ok ("print(2)\n"))

/-- A file whose read fails with a permission error. -/
def badFile : FileEntry :=
  FileEntry.mk [("bad.txt")] false (ReadResult.ioError ("Permission denied"))

/-- `dropRoot` succeeds exactly when the root is a prefix of the path, and
then yields the remaining components. -/
theorem dropRoot_spec (r l : List String) :
    dropRoot r l = if l.take r.length = r then some (l.drop r.length) else none := by
  induction r generalizing l with
  | nil => simp [dropRoot]
  | cons a rs ih =>
    cases l with
    | nil => simp [dropRoot]
    | cons b ls =>
      simp only [dropRoot, List.length_cons, List.take_succ_cons, List.drop_succ_cons]
      by_cases hab : a = b
      · subst hab
        rw [ih ls]
        by_cases h : ls.take rs.length = rs
        · simp [h]
        · simp [h]
      · have hba : ¬ b = a := fun h => hab h.symm
        simp [hab, hba]

/-- Every rendered entry ends in a newline, so consecutive entries of the
joined block (separated by a single `"\n"` in `gather_context`) are divided
by exactly one blank line. -/
theorem endsWithNewline_renderEntry (relative_path content : String) :
    endsWithNewline (renderEntry relative_path content) = true := by
  have hdata : (renderEntry relative_path content).data =
      ((("--- FILE: ") ++ relative_path ++ (" ---\n") ++ content ++
        ("\n--- END FILE: ") ++ relative_path).data ++ [' ', '-', '-', '-']) ++ ['\n'] := by
    simp [renderEntry, List.append_assoc]
  rw [endsWithNewline, hdata, List.getLast?_concat]
  rfl

/-- A file that is not a directory, not ignored, has no deny-listed suffix,
decodes, and is within the size bound produces exactly its rendered entry. -/
theorem gatherFile_fst_some (project_root ignore_patterns : List String) (e : FileEntry)
    (c : String) (hdir : e.isDir = false)
    (hig : ignoreLoop (asPosix e.parts) e.isDir ignore_patterns = false)
    (hbin : BINARY_SUFFIXES.contains (pySuffix (e.parts.getLastD (""))) = false)
    (hread : e.read = ReadResult.ok c) (hsize : c.length ≤ 100000) :
    (gatherFile project_root ignore_patterns e).fst = some (renderEntry (asPosix e.parts) c) := by
  have hig' : ignoreLoop (asPosix e.parts) false ignore_patterns = false := hdir ▸ hig
  have hbin' : ¬ pySuffix (e.parts.getLast?.getD ("")) ∈ BINARY_SUFFIXES := by simpa using hbin
  simp [gatherFile, hdir, hig', hbin', hread, Nat.not_lt.mpr hsize]

/-- The first component of every pair produced by `gatherPairs` is the
component list of some listing entry. -/
theorem mem_map_parts_of_mem_gatherPairs (project_root ignore_patterns : List String)
    (listing : List FileEntry) (x : List String) (y : String)
    (h : (x, y) ∈ gatherPairs project_root ignore_patterns listing) :
    x ∈ listing.map FileEntry.parts := by
  rw [gatherPairs, List.mem_filterMap] at h
  obtain ⟨e, he, hf⟩ := h
  rw [List.mem_map]
  refine ⟨e, he, ?_⟩
  rcases hfe : (gatherFile project_root ignore_patterns e).fst with _ | s
  · rw [hfe] at hf
    simp at hf
  · rw [hfe, Option.map_some'] at hf
    have := Option.some.inj hf
    exact (Prod.mk.injEq _ _ _ _ ▸ this).1

/-- When the listing has pairwise-distinct paths and entry `e` survives the
filters with output `s`, exactly one produced pair carries `e`'s path. -/
theorem count_gatherPairs_one (project_root ignore_patterns : List String)
    (listing : List FileEntry) (e : FileEntry) (s : String)
    (hnd : (listing.map FileEntry.parts).Nodup) (he : e ∈ listing)
    (hf : (gatherFile project_root ignore_patterns e).fst = some s) :
    (gatherPairs project_root ignore_patterns listing).count (e.parts, s) = 1 := by
  induction listing with
  | nil => cases he
  | cons a t ih =>
    rw [List.map_cons, List.nodup_cons] at hnd
    rcases List.mem_cons.mp he with rfl | het
    · have hz : (gatherPairs project_root ignore_patterns t).count (e.parts, s) = 0 := by
        rw [List.count_eq_zero]
        intro hmem
        exact hnd.1 (mem_map_parts_of_mem_gatherPairs _ _ _ _ _ hmem)
      rw [gatherPairs, List.filterMap_cons, hf, Option.map_some']
      rw [gatherPairs] at hz
      simp [List.count_cons, hz]
    · have hne : ¬ a.parts = e.parts := by
        intro heq
        exact hnd.1 (heq ▸ List.mem_map_of_mem FileEntry.parts het)
      have ht := ih hnd.2 het
      rw [gatherPairs, List.filterMap_cons]
      rw [gatherPairs] at ht
      rcases hfa : (gatherFile project_root ignore_patterns a).fst with _ | sa
      · simpa using ht
      · have hpair : ¬ ((a.parts, sa) = (e.parts, s)) := by
          intro hp
          exact hne (Prod.mk.injEq _ _ _ _ ▸ hp).1
        simp [List.count_cons, hpair, ht]

/-- C1: the claim says a pattern ending in a path separator makes every path
strictly under the named directory ignored, e.g. `"node_modules/"` matches
the file `"node_modules/pkg/index.js"`.  The code strips the trailing slash
only when the candidate itself is a directory, so for a file candidate the
patterns actually tested are `"node_modules/"` and `"node_modules//*"`,
neither of which matches: `is_ignored` returns `false`. -/
theorem C1_dir_pattern_misses_file :
    is_ignored (FSPath.mk [("node_modules"), ("pkg"), ("index.js")] false)
      [("node_modules/")] [] = Except.ok false := by
  rfl

/-- C2: for the scenario root (`a.py`, `node_modules/x.js`, `.git/HEAD`,
`notes.log`) under the built-in default ignore rules, the gatherer emits
three entries, not only the one for `a.py`: the directory patterns `.git/`
and `node_modules/` never match file candidates, so `.git/HEAD` and
`node_modules/x.js` leak into the context; only `notes.log` is ignored
(by `*.log`). -/
theorem C2_default_rules_leak :
    gatherEntries [] DEFAULT_IGNORE_FILES scenarioListing =
      [renderEntry (".git/HEAD") ("ref: refs/heads/main\n"),
       renderEntry ("a.py") aContent,
       renderEntry ("node_modules/x.js") ("console.log(1);\n")] := by
  rfl

/-- C3: the claim says `load_config` leaves the built-in defaults unchanged.
In the code `final_ignore_list` aliases the `DEFAULT_CONFIG["ignore_files"]`
list object and is extended in place: after one call whose `manus.json`
contributes `"*.secret"`, the global default list has grown by that pattern,
and a second call with no configuration files at all still reports
`"*.secret"` among its patterns. -/
theorem C3_default_config_mutated :
    load_config [] exampleSecretJson FileRead.missing initialState =
      Except.ok (exampleSecretCfg, [],
        GlobalState.mk (DEFAULT_IGNORE_FILES ++ [("*.secret")])) ∧
    DEFAULT_IGNORE_FILES ++ [("*.secret")] ≠ DEFAULT_IGNORE_FILES ∧
    load_config [] FileRead.missing FileRead.missing
        (GlobalState.mk (DEFAULT_IGNORE_FILES ++ [("*.secret")])) =
      Except.ok (exampleSecretCfg, [],
        GlobalState.mk ((DEFAULT_IGNORE_FILES ++ [("*.secret")]) ++
          (DEFAULT_IGNORE_FILES ++ [("*.secret")]))) ∧
    ("*.secret") ∈ exampleSecretCfg.ignore_files := by
  refine ⟨rfl, by decide, rfl, by decide⟩

/-- C4: starting from a fresh process state, whenever `load_config` returns
a configuration, its `ignore_files` is duplicate-free and contains exactly
the union of the built-in defaults, the configuration file's `ignore_files`
list, and the ignore file's non-blank non-comment lines. -/
theorem C4_ignore_union (project_root : List String) (fsJson : FileRead JsonParse)
    (fsIgnore : FileRead (List String)) (cfg : Config) (warns : List String)
    (st' : GlobalState) (s : String)
    (h : load_config project_root fsJson fsIgnore initialState = Except.ok (cfg, warns, st')) :
    cfg.ignore_files.Nodup ∧
    (s ∈ cfg.ignore_files ↔
      s ∈ DEFAULT_IGNORE_FILES ∨ s ∈ configFileIgnores fsJson ∨
        s ∈ ignoreFileIgnores fsIgnore) := by
  rcases fsJson with _ | msg | p
  · rcases fsIgnore with _ | m2 | lines <;>
      · simp only [load_config, applyManusJson, readManusignore, extendByConfigIgnore,
          initialState, Except.ok.injEq, Prod.mk.injEq] at h
        obtain ⟨hc, -, -⟩ := h
        subst hc
        simp only [pySet, configFileIgnores, ignoreFileIgnores, List.nodup_dedup,
          List.mem_dedup, List.mem_append, List.not_mem_nil, true_and]
        tauto
  · simp [load_config, applyManusJson] at h
  · rcases p with _ | _ | o
    · rcases fsIgnore with _ | m2 | lines <;>
        · simp only [load_config, applyManusJson, readManusignore, extendByConfigIgnore,
            initialState, Except.ok.injEq, Prod.mk.injEq] at h
          obtain ⟨hc, -, -⟩ := h
          subst hc
          simp only [pySet, configFileIgnores, ignoreFileIgnores, List.nodup_dedup,
            List.mem_dedup, List.mem_append, List.not_mem_nil, true_and]
          tauto
    · simp [load_config, applyManusJson] at h
    · obtain ⟨om, osp, oig⟩ := o
      rcases oig with _ | _ | xs <;>
        rcases fsIgnore with _ | m2 | lines <;>
          · simp only [load_config, applyManusJson, readManusignore, extendByConfigIgnore,
              initialState, Except.ok.injEq, Prod.mk.injEq] at h
            obtain ⟨hc, -, -⟩ := h
            subst hc
            simp only [pySet, configFileIgnores, ignoreFileIgnores, List.nodup_dedup,
              List.mem_dedup, List.mem_append, List.not_mem_nil, true_and]
            tauto

/-- C4 witness: a configuration file with `ignore_files: ["*.secret"]` and no
ignore file yields a final set containing `"*.secret"` as well as every
built-in default (shown here for `".git/"`). -/
theorem C4_ignore_union_witness :
    (exampleSecretCfg.ignore_files.Nodup ∧
      ((("*.secret") ∈ exampleSecretCfg.ignore_files) ↔
        ("*.secret") ∈ DEFAULT_IGNORE_FILES ∨
          ("*.secret") ∈ configFileIgnores exampleSecretJson ∨
          ("*.secret") ∈ ignoreFileIgnores (FileRead.missing))) ∧
    ((((".git/") ∈ exampleSecretCfg.ignore_files) ↔
        (".git/") ∈ DEFAULT_IGNORE_FILES ∨
          (".git/") ∈ configFileIgnores exampleSecretJson ∨
          (".git/") ∈ ignoreFileIgnores (FileRead.missing))) :=
  ⟨C4_ignore_union [] exampleSecretJson FileRead.missing exampleSecretCfg []
      (GlobalState.mk (DEFAULT_IGNORE_FILES ++ [("*.secret")])) ("*.secret") rfl,
   (C4_ignore_union [] exampleSecretJson FileRead.missing exampleSecretCfg []
      (GlobalState.mk (DEFAULT_IGNORE_FILES ++ [("*.secret")])) (".git/") rfl).2⟩

/-- C5 counterexample: the claim says `load_config` never raises.  When
`manus.json` is present but cannot be read (here an `OSError` with
`Permission denied`), only `json.JSONDecodeError` would be caught, so the
error propagates out of `load_config`. -/
theorem C5_never_raises_counterexample :
    load_config [] (FileRead.unreadable ("Permission denied")) FileRead.missing initialState =
      Except.error ("OSError: could not read manus.json: Permission denied") := by
  rfl

/-- C5 as amended: `load_config` raises exactly when `manus.json` is present
but unreadable, or parses to a valid JSON value that `dict.update` rejects
(one that is neither a mapping nor an iterable of key/value pairs); missing
files are silently skipped, and a present-but-malformed `manus.json` behaves
exactly like a missing one except that the parse warning is emitted first
(defaults kept, ignore-file lines still merged). -/
theorem C5_recoverable_parse_failure (project_root : List String)
    (fsJson : FileRead JsonParse) (fsIgnore : FileRead (List String)) (st : GlobalState) :
    isErrEx (load_config project_root fsJson fsIgnore st) = jsonRaises fsJson ∧
    load_config project_root (FileRead.content JsonParse.malformed) fsIgnore st =
      addFirstWarning (parseWarning project_root)
        (load_config project_root FileRead.missing fsIgnore st) := by
  constructor
  · rcases fsJson with _ | msg | p
    · rfl
    · rfl
    · rcases p with _ | _ | o <;> rfl
  · rfl

/-- C5 witness: at a concrete input that is not unreadable and not a
non-object (a malformed `manus.json` with a missing ignore file), the call
returns successfully, with the parse warning prepended to the missing-file
behaviour. -/
theorem C5_recoverable_parse_failure_witness :
    isErrEx (load_config [] (FileRead.content JsonParse.malformed) FileRead.missing
        initialState) =
      jsonRaises (FileRead.content JsonParse.malformed) ∧
    load_config [] (FileRead.content JsonParse.malformed) FileRead.missing initialState =
      addFirstWarning (parseWarning [])
        (load_config [] FileRead.missing FileRead.missing initialState) :=
  C5_recoverable_parse_failure [] (FileRead.content JsonParse.malformed)
    FileRead.missing initialState

/-- C6: `is_ignored` raises the `relative_to` error exactly when the path is
not under the project root, and returns a boolean (no error) exactly when it
is; the error is the distinct `ValueError` of `Path.relative_to`, propagated
unswallowed. -/
theorem C6_out_of_root_error (path : FSPath) (ignore_patterns project_root : List String) :
    (is_ignored path ignore_patterns project_root =
        Except.error (invalidPathError path.parts project_root) ↔
      ¬ path.parts.take project_root.length = project_root) ∧
    (isIgnoredRaises (is_ignored path ignore_patterns project_root) = false ↔
      path.parts.take project_root.length = project_root) := by
  unfold is_ignored
  rw [dropRoot_spec]
  by_cases h : path.parts.take project_root.length = project_root
  · simp [h, isIgnoredRaises]
  · simp [h, isIgnoredRaises]

/-- C7: a file that survives every other filter (not a directory, not
ignored, non-binary suffix, decodable) produces an entry exactly when its
decoded length is at most 100000 characters. -/
theorem C7_size_threshold (project_root ignore_patterns : List String) (e : FileEntry)
    (c : String) (hdir : e.isDir = false)
    (hig : ignoreLoop (asPosix e.parts) e.isDir ignore_patterns = false)
    (hbin : BINARY_SUFFIXES.contains (pySuffix (e.parts.getLastD (""))) = false)
    (hread : e.read = ReadResult.ok c) :
    (gatherFile project_root ignore_patterns e).fst =
      if c.length ≤ 100000 then some (renderEntry (asPosix e.parts) c) else none := by
  have hig' : ignoreLoop (asPosix e.parts) false ignore_patterns = false := hdir ▸ hig
  have hbin' : ¬ pySuffix (e.parts.getLast?.getD ("")) ∈ BINARY_SUFFIXES := by simpa using hbin
  by_cases h : c.length ≤ 100000
  · simp [gatherFile, hdir, hig', hbin', hread, h, Nat.not_lt.mpr h]
  · simp [gatherFile, hdir, hig', hbin', hread, h, Nat.lt_of_not_le h]

/-- C7 witness: a small, ordinary file under the default rules. -/
theorem C7_size_threshold_witness :
    (gatherFile [] DEFAULT_IGNORE_FILES smallFile).fst =
      if (("print(1)\n") : String).length ≤ 100000 then
        some (renderEntry (asPosix smallFile.parts) ("print(1)\n")) else none :=
  C7_size_threshold [] DEFAULT_IGNORE_FILES smallFile ("print(1)\n")
    rfl (by decide) (by decide) rfl

/-- C8: when the listing enumerates pairwise-distinct paths, each file that
survives every filter yields exactly one produced entry (none dropped, no
duplicates), that entry is rendered as
`--- FILE: rel ---`, newline, content, newline, `--- END FILE: rel ---`,
newline, the block is the entries joined by a single newline, and every
entry ends in a newline, so consecutive entries are separated by exactly one
blank line. -/
theorem C8_one_entry_per_file (project_root ignore_patterns : List String)
    (listing : List FileEntry) (e : FileEntry) (c : String)
    (hnd : (listing.map FileEntry.parts).Nodup) (he : e ∈ listing)
    (hdir : e.isDir = false)
    (hig : ignoreLoop (asPosix e.parts) e.isDir ignore_patterns = false)
    (hbin : BINARY_SUFFIXES.contains (pySuffix (e.parts.getLastD (""))) = false)
    (hread : e.read = ReadResult.ok c) (hsize : c.length ≤ 100000) :
    (gatherPairs project_root ignore_patterns listing).count
        (e.parts, renderEntry (asPosix e.parts) c) = 1 ∧
    (gather_context project_root listing ignore_patterns).fst =
      String.intercalate ("\n") (gatherEntries project_root ignore_patterns listing) ∧
    endsWithNewline (renderEntry (asPosix e.parts) c) = true :=
  ⟨count_gatherPairs_one project_root ignore_patterns listing e _ hnd he
      (gatherFile_fst_some project_root ignore_patterns e c hdir hig hbin hread hsize),
   rfl,
   endsWithNewline_renderEntry _ _⟩

/-- C8 witness: a two-file listing with distinct paths; the entry of the
first file occurs exactly once among the produced pairs. -/
theorem C8_one_entry_per_file_witness :
    (gatherPairs [] DEFAULT_IGNORE_FILES [goodA, goodB]).count
        (goodA.parts, renderEntry (asPosix goodA.parts) ("print(1)\n")) = 1 ∧
    (gather_context [] [goodA, goodB] DEFAULT_IGNORE_FILES).fst =
      String.intercalate ("\n") (gatherEntries [] DEFAULT_IGNORE_FILES [goodA, goodB]) ∧
    endsWithNewline (renderEntry (asPosix goodA.parts) ("print(1)\n")) = true :=
  C8_one_entry_per_file [] DEFAULT_IGNORE_FILES [goodA, goodB] goodA ("print(1)\n")
    (by decide) (by decide) rfl (by decide) (by decide) rfl (by decide)

/-- C9: a per-file read failure that is neither a skip nor a decode error
produces the warning and no entry for that file, the warning appears in the
diagnostic output of the whole scan, and every other surviving file still
contributes its entry — the traversal is never aborted (the embedded
gatherer is a total function; no read outcome escapes it). -/
theorem C9_read_failure_warns_and_continues (project_root ignore_patterns : List String)
    (listing : List FileEntry) (e eGood : FileEntry) (msg cGood : String)
    (he : e ∈ listing) (hdir : e.isDir = false)
    (hig : ignoreLoop (asPosix e.parts) e.isDir ignore_patterns = false)
    (hbin : BINARY_SUFFIXES.contains (pySuffix (e.parts.getLastD (""))) = false)
    (hread : e.read = ReadResult.ioError msg)
    (hg : eGood ∈ listing) (hgdir : eGood.isDir = false)
    (hgig : ignoreLoop (asPosix eGood.parts) eGood.isDir ignore_patterns = false)
    (hgbin : BINARY_SUFFIXES.contains (pySuffix (eGood.parts.getLastD (""))) = false)
    (hgread : eGood.read = ReadResult.ok cGood) (hgsize : cGood.length ≤ 100000) :
    gatherFile project_root ignore_patterns e =
      (none, some (readWarning project_root e.parts msg)) ∧
    readWarning project_root e.parts msg ∈
      (gather_context project_root listing ignore_patterns).snd ∧
    (eGood.parts, renderEntry (asPosix eGood.parts) cGood) ∈
      gatherPairs project_root ignore_patterns listing := by
  have h1 : gatherFile project_root ignore_patterns e =
      (none, some (readWarning project_root e.parts msg)) := by
    have hig' : ignoreLoop (asPosix e.parts) false ignore_patterns = false := hdir ▸ hig
    have hbin' : ¬ pySuffix (e.parts.getLast?.getD ("")) ∈ BINARY_SUFFIXES := by simpa using hbin
    simp [gatherFile, hdir, hig', hbin', hread]
  refine ⟨h1, ?_, ?_⟩
  · show readWarning project_root e.parts msg ∈
      gatherWarnings project_root ignore_patterns listing
    rw [gatherWarnings, List.mem_filterMap]
    exact ⟨e, he, by simp [h1]⟩
  · rw [gatherPairs, List.mem_filterMap]
    refine ⟨eGood, hg, ?_⟩
    simp [gatherFile_fst_some project_root ignore_patterns eGood cGood hgdir hgig hgbin
      hgread hgsize]

/-- C9 witness: a listing with one unreadable file and one good file; the
warning is emitted, and the good file's entry is still produced. -/
theorem C9_read_failure_witness :
    gatherFile [] DEFAULT_IGNORE_FILES badFile =
      (none, some (readWarning [] badFile.parts ("Permission denied"))) ∧
    readWarning [] badFile.parts ("Permission denied") ∈
      (gather_context [] [badFile, goodB] DEFAULT_IGNORE_FILES).snd ∧
    (goodB.parts, renderEntry (asPosix goodB.parts) ("print(2)\n")) ∈
      gatherPairs [] DEFAULT_IGNORE_FILES [badFile, goodB] :=
  C9_read_failure_warns_and_continues [] DEFAULT_IGNORE_FILES [badFile, goodB]
    badFile goodB ("Permission denied") ("print(2)\n")
    (by decide) rfl (by decide) (by decide) rfl
    (by decide) rfl (by decide) (by decide) rfl (by decide)

/-- C10: for a path under the root and a pattern in the rule list, as long
as the trailing-slash strip does not fire (the pattern does not end in a
separator, or the candidate is not a directory), a relative path matching
either the pattern itself or the pattern with `"/*"` appended makes
`is_ignored` return `true`; e.g. the bare pattern `"build"` also matches
`"build/main.js"`. -/
theorem C10_pattern_slash_star (path : FSPath) (ignore_patterns project_root : List String)
    (p : String) (hmem : p ∈ ignore_patterns)
    (hts : endsWithSlash p = false ∨ path.isDir = false)
    (hroot : path.parts.take project_root.length = project_root)
    (hm : fnmatch (asPosix (path.parts.drop project_root.length)) p = true ∨
      fnmatch (asPosix (path.parts.drop project_root.length)) (p ++ ("/*")) = true) :
    is_ignored path ignore_patterns project_root = Except.ok true := by
  unfold is_ignored
  rw [dropRoot_spec, if_pos hroot]
  have hloop : ignoreLoop (asPosix (path.parts.drop project_root.length)) path.isDir
      ignore_patterns = true := by
    rw [ignoreLoop, List.any_eq_true]
    refine ⟨p, hmem, ?_⟩
    have hcond : (endsWithSlash p && path.isDir) = false := by
      rcases hts with h | h <;> simp [h]
    simp only [hcond, Bool.false_eq_true, if_false]
    rcases hm with h | h <;> simp [h]
  simp [hloop]

/-- C10 witness: the bare pattern `"build"` (no trailing separator) also
matches the nested file `"build/main.js"`. -/
theorem C10_pattern_slash_star_witness :
    is_ignored (FSPath.mk [("build"), ("main.js")] false) [("build")] [] = Except.ok true :=
  C10_pattern_slash_star (FSPath.mk [("build"), ("main.js")] false) [("build")] [] ("build")
    (by decide) (Or.inr rfl) rfl (Or.inr (by decide))

end Manus
